import Mathlib

/-!
# Verification of the esgextract-fe data-access and scoring layer

Shallow embedding of the repository's core logic:

* `src/utils/data_loader.py` — `load_data`, `get_years`, `get_latest_year_data`,
  `get_company_trend_data`, `get_multi_company_data`.
* `src/pages/companyReport.py` — `calculate_esg_scores`.

Modelling conventions:

* JSON values are modelled by `JVal` (null, number, string, object, array).
  JSON numbers are modelled by `ℚ` (exact-arithmetic idealization of Python
  int/float); Python dicts are association lists in insertion order, looked
  up by first match (JSON object keys are unique, so this agrees with dict
  lookup).
* The top-level JSON document is a `Data`: an association list whose values
  are objects, as in the repository's `data.json` (the code calls `.get` on
  every top-level value, so a non-object value would raise; such documents
  are outside the model).
* Fallible Python code (uncaught `ValueError`/`TypeError` from `int(...)`,
  `KeyError` from a missing DataFrame column) is modelled with `Option`:
  `none` is a raised exception.
* pandas column arithmetic is modelled elementwise over `PF`, an extended
  rational mirroring IEEE special values (`nan`, `+inf`, `-inf`): division
  by zero yields `nan`/`±inf` instead of raising, and `nan` propagates.
* `DataFrame.sort_values(by, ascending=False)` is modelled the way pandas
  implements it (`nargsort`): NaN keys are masked out and appended at the
  end in input order; the non-NaN part is reversed, stably argsorted
  ascending, and reversed again.  The stable ascending sort is modelled by
  `List.mergeSort`; this is exact for the frames this dashboard sorts
  (at most five rows, where numpy's default sort is a stable insertion
  sort), and any two stable sorts agree as functions.
-/

/-- A JSON value as loaded by `json.load`.  Numbers are idealized as `ℚ`. -/
inductive JVal where
  | jnull : JVal
  | jnum : ℚ → JVal
  | jstr : String → JVal
  | jobj : List (String × JVal) → JVal
  | jarr : List JVal → JVal

open JVal

mutual

/-- Decidable equality for `JVal` (hand-rolled: the nested lists defeat the
derive handler). -/
def JVal.decEq : (a b : JVal) → Decidable (a = b)
  | jnull, jnull => isTrue rfl
  | jnull, jnum _ => isFalse (fun h => JVal.noConfusion h)
  | jnull, jstr _ => isFalse (fun h => JVal.noConfusion h)
  | jnull, jobj _ => isFalse (fun h => JVal.noConfusion h)
  | jnull, jarr _ => isFalse (fun h => JVal.noConfusion h)
  | jnum _, jnull => isFalse (fun h => JVal.noConfusion h)
  | jnum a, jnum b =>
    if h : a = b then isTrue (by rw [h]) else isFalse (fun hh => h (by injection hh))
  | jnum _, jstr _ => isFalse (fun h => JVal.noConfusion h)
  | jnum _, jobj _ => isFalse (fun h => JVal.noConfusion h)
  | jnum _, jarr _ => isFalse (fun h => JVal.noConfusion h)
  | jstr _, jnull => isFalse (fun h => JVal.noConfusion h)
  | jstr _, jnum _ => isFalse (fun h => JVal.noConfusion h)
  | jstr a, jstr b =>
    if h : a = b then isTrue (by rw [h]) else isFalse (fun hh => h (by injection hh))
  | jstr _, jobj _ => isFalse (fun h => JVal.noConfusion h)
  | jstr _, jarr _ => isFalse (fun h => JVal.noConfusion h)
  | jobj _, jnull => isFalse (fun h => JVal.noConfusion h)
  | jobj _, jnum _ => isFalse (fun h => JVal.noConfusion h)
  | jobj _, jstr _ => isFalse (fun h => JVal.noConfusion h)
  | jobj a, jobj b =>
    match JVal.decEqListP a b with
    | isTrue h => isTrue (by rw [h])
    | isFalse h => isFalse (fun hh => h (by injection hh))
  | jobj _, jarr _ => isFalse (fun h => JVal.noConfusion h)
  | jarr _, jnull => isFalse (fun h => JVal.noConfusion h)
  | jarr _, jnum _ => isFalse (fun h => JVal.noConfusion h)
  | jarr _, jstr _ => isFalse (fun h => JVal.noConfusion h)
  | jarr _, jobj _ => isFalse (fun h => JVal.noConfusion h)
  | jarr a, jarr b =>
    match JVal.decEqListJ a b with
    | isTrue h => isTrue (by rw [h])
    | isFalse h => isFalse (fun hh => h (by injection hh))

/-- Decidable equality for lists of `JVal`. -/
def JVal.decEqListJ : (a b : List JVal) → Decidable (a = b)
  | [], [] => isTrue rfl
  | [], _ :: _ => isFalse (fun h => List.noConfusion h)
  | _ :: _, [] => isFalse (fun h => List.noConfusion h)
  | x :: xs, y :: ys =>
    match JVal.decEq x y with
    | isFalse h1 => isFalse (fun h => h1 (by injection h))
    | isTrue h1 =>
      match JVal.decEqListJ xs ys with
      | isTrue h2 => isTrue (by rw [h1, h2])
      | isFalse h2 => isFalse (fun h => h2 (by injection h))

/-- Decidable equality for association lists of `JVal`. -/
def JVal.decEqListP : (a b : List (String × JVal)) → Decidable (a = b)
  | [], [] => isTrue rfl
  | [], _ :: _ => isFalse (fun h => List.noConfusion h)
  | _ :: _, [] => isFalse (fun h => List.noConfusion h)
  | (k, x) :: xs, (l, y) :: ys =>
    if hk : k = l then
      match JVal.decEq x y with
      | isFalse h1 => isFalse (fun h => h1 (by injection h with h' _; injection h'))
      | isTrue h1 =>
        match JVal.decEqListP xs ys with
        | isTrue h2 => isTrue (by rw [hk, h1, h2])
        | isFalse h2 => isFalse (fun h => h2 (by injection h))
    else isFalse (fun h => hk (by injection h with h' _; injection h'))

end

instance : DecidableEq JVal := JVal.decEq

/-- A JSON object: a Python dict in insertion order. -/
abbrev Obj := List (String × JVal)

/-- The top-level `data.json` document: a dict whose values are objects
(the per-record entries and the `"metadata"` entry). -/
abbrev Data := List (String × Obj)

/-- Python `d.get(k)` (no default): the stored value, or `None` when the key
is absent.  First match models dict lookup since JSON keys are unique. -/
def objGet (d : Obj) (k : String) : Option JVal :=
  (d.find? (fun p => p.1 == k)).map (fun p => p.2)

/-- Python `d.get(k, default)`: note that a key stored with value `null`
returns `null`, not the default. -/
def objGetD (d : Obj) (k : String) (v : JVal) : JVal :=
  (objGet d k).getD v

/-- Lookup in the top-level document. -/
def dataGet (d : Data) (k : String) : Option Obj :=
  (d.find? (fun p => p.1 == k)).map (fun p => p.2)

/-- Decimal-digit accumulator for `strToInt?`. -/
def digitsToNat : List Char → Option ℕ
  | [] => some 0
  | c :: cs =>
    if c.isDigit then
      match digitsToNat cs with
      | some n => some (n * 10 + (c.toNat - '0'.toNat))
      | none => none
    else none

/-- Value of a reversed digit list (so `digitsToNat` reads most-significant
last); helper keeping the recursion structural. -/
def natOfDigits (cs : List Char) : Option ℕ :=
  digitsToNat cs.reverse

/-- Python `int(s)` on a string: optional sign then decimal digits
(`none` models the `ValueError` on anything else; Python's tolerance of
surrounding whitespace and underscores is not exercised by this data). -/
def strToInt? (s : String) : Option ℤ :=
  match s.toList with
  | [] => none
  | '-' :: cs => if cs.isEmpty then none else (natOfDigits cs).map (fun n => -(n : ℤ))
  | '+' :: cs => if cs.isEmpty then none else (natOfDigits cs).map (fun n => (n : ℤ))
  | cs => (natOfDigits cs).map (fun n => (n : ℤ))

/-- Python `int(x)`: parses integer strings, truncates floats toward zero,
and raises (`none`) on `None`, lists and dicts. -/
def pyInt : JVal → Option ℤ
  | jnum q => some (Int.tdiv q.num (q.den : ℤ))
  | jstr s => strToInt? s
  | _ => none

/-- Scan of Python `max(xs, key=int)`: keeps the current maximum (first
maximal element wins ties, as Python `max` does) and raises (`none`) when a
key fails to parse. -/
def pyMaxGo (cur : JVal) (curKey : ℤ) : List JVal → Option JVal
  | [] => some cur
  | y :: rest =>
    match pyInt y with
    | none => none
    | some k => if curKey < k then pyMaxGo y k rest else pyMaxGo cur curKey rest

/-- Python `max(xs, key=int)`: the first element whose `int(·)` key is
maximal.  `none` models both the empty-sequence `ValueError` (callers guard
against it first) and a `ValueError` from an unparsable element. -/
def pyMaxByInt (ys : List JVal) : Option JVal :=
  match ys with
  | [] => none
  | y :: rest =>
    match pyInt y with
    | none => none
    | some k => pyMaxGo y k rest

/-- Python `x == n` for an optional value `x` and an integer `n`: true only
for numerically equal numbers (`None`, strings, lists never equal an int). -/
def eqNumInt (v : Option JVal) (n : ℤ) : Bool :=
  match v with
  | some (jnum q) => decide (q = (n : ℚ))
  | _ => false

/-- Python `x == c` for an optional value `x` and a string `c`. -/
def eqStrOpt (v : Option JVal) (c : String) : Bool :=
  match v with
  | some (jstr s) => s == c
  | _ => false

/-- Python `x in companies` for a list of strings: only a string member
compares equal. -/
def isStrIn (v : Option JVal) (companies : List String) : Bool :=
  match v with
  | some (jstr s) => companies.contains s
  | _ => false

/-- The state of the backing `data.json` file seen by `load_data`. -/
inductive SourceFile where
  | missing : SourceFile
  | malformed : SourceFile
  | wellFormed : Data → SourceFile

/-- `load_data` (src/utils/data_loader.py:11-29): returns the parsed
document; `FileNotFoundError` and `json.JSONDecodeError` are caught and
yield the empty dict. -/
def load_data : SourceFile → Data
  | SourceFile.missing => []
  | SourceFile.malformed => []
  | SourceFile.wellFormed d => d

/-- `get_years` (src/utils/data_loader.py:41-49):
`data.get('metadata', {}).get('years', [])`.  `none` models a stored
non-list `years` value, whose downstream behavior is not modelled. -/
def get_years (data : Data) : Option (List JVal) :=
  match dataGet data "metadata" with
  | none => some []
  | some m =>
    match objGet m "years" with
    | none => some []
    | some (jarr ys) => some ys
    | some _ => none

/-- A projected row: the fixed-schema dict built by the data-loader query
functions (column values keep their loaded JSON type). -/
structure Row where
  company : JVal
  year : JVal
  accident_rate : JVal
  fatalities : JVal
  safety_audit : JVal
  carbon_emissions : JVal
  energy_consumption : JVal
  renewPct : JVal
  renewAmount : JVal
  construction_waste : JVal
  recycling_rate : JVal
  deriving DecidableEq

/-- The shared indicator-projection block of `get_latest_year_data`,
`get_company_trend_data` and `get_multi_company_data`: each indicator via
`.get(key, 0)`; note the source keys `fatality_rate` and
`safety_inspection_compliance_rate`, and that `renewable_energy_amount`
also defaults to `0` when absent. -/
def mkRow (companyV yearV : JVal) (cd : Obj) : Row :=
  { company := companyV
    year := yearV
    accident_rate := objGetD cd "accident_rate" (jnum 0)
    fatalities := objGetD cd "fatality_rate" (jnum 0)
    safety_audit := objGetD cd "safety_inspection_compliance_rate" (jnum 0)
    carbon_emissions := objGetD cd "carbon_emissions" (jnum 0)
    energy_consumption := objGetD cd "energy_consumption" (jnum 0)
    renewPct := objGetD cd "renewable_energy_ratio" (jnum 0)
    renewAmount := objGetD cd "renewable_energy_amount" (jnum 0)
    construction_waste := objGetD cd "construction_waste" (jnum 0)
    recycling_rate := objGetD cd "recycling_rate" (jnum 0) }

/-- Row built by `get_latest_year_data`/`get_company_trend_data`:
`'Company': get('company_name', '')`, `'Year': get('year', '')`. -/
def rowLatest (cd : Obj) : Row :=
  mkRow (objGetD cd "company_name" (jstr "")) (objGetD cd "year" (jstr "")) cd

/-- Row built by `get_multi_company_data`: `'Company': company_name`,
`'Year': data_year` (the values of `.get` without default; the record filter
guarantees they are present, `jnull` is the absent case). -/
def rowMulti (cd : Obj) : Row :=
  mkRow (objGetD cd "company_name" jnull) (objGetD cd "year" jnull) cd

/-- `get_latest_year_data` (src/utils/data_loader.py:51-88): empty years
list returns the empty frame; otherwise `latest_year = max(years, key=int)`
and one row per top-level record (skipping `"metadata"`) whose `year` field
equals `int(latest_year)`. -/
def get_latest_year_data (data : Data) : Option (List Row) :=
  match get_years data with
  | none => none
  | some ys =>
    if ys.isEmpty then some []
    else
      match pyMaxByInt ys with
      | none => none
      | some ly =>
        match pyInt ly with
        | none => none
        | some n =>
          some (((data.filter
              (fun kv => kv.1 != "metadata" && eqNumInt (objGet kv.2 "year") n)).map
            (fun kv => rowLatest kv.2)))

/-- Key used by `df.sort_values('Year')` in `get_company_trend_data`;
the model covers numeric year columns (the only case the page exercises). -/
def yearKey (r : Row) : ℚ :=
  match r.year with
  | jnum q => q
  | _ => 0

/-- `get_company_trend_data` (src/utils/data_loader.py:90-127): all records
whose `company_name` equals the given name, sorted ascending by `Year`
(the empty frame is returned unsorted). -/
def get_company_trend_data (company : String) (data : Data) : List Row :=
  let rows := (data.filter
      (fun kv => kv.1 != "metadata" && eqStrOpt (objGet kv.2 "company_name") company)).map
    (fun kv => rowLatest kv.2)
  if rows.isEmpty then rows
  else rows.mergeSort (fun a b => yearKey a ≤ yearKey b)

/-- `get_multi_company_data` (src/utils/data_loader.py:129-171): with
`year=None` the numeric-maximum metadata year is used, or the literal
`'2025'` when the years list is empty; records are kept when their
`company_name` is in the requested list and their `year` equals
`int(year)`, in the document's own order. -/
def get_multi_company_data (companies : List String) (year : Option JVal)
    (data : Data) : Option (List Row) :=
  let yearRes : Option JVal :=
    match year with
    | some y => some y
    | none =>
      match get_years data with
      | none => none
      | some ys => if ys.isEmpty then some (jstr "2025") else pyMaxByInt ys
  match yearRes with
  | none => none
  | some y =>
    match pyInt y with
    | none => none
    | some n =>
      some ((data.filter
          (fun kv => kv.1 != "metadata"
            && isStrIn (objGet kv.2 "company_name") companies
            && eqNumInt (objGet kv.2 "year") n)).map
        (fun kv => rowMulti kv.2))

/-- A pandas float64 cell, idealized over exact rationals: `nan` and signed
infinities mirror IEEE special values; finite values carry no rounding. -/
inductive PF where
  | nan : PF
  | pinf : PF
  | ninf : PF
  | num : ℚ → PF
  deriving DecidableEq

namespace PF

/-- IEEE negation. -/
def fneg : PF → PF
  | nan => nan
  | pinf => ninf
  | ninf => pinf
  | num q => num (-q)

/-- IEEE addition: `nan` propagates, `+inf + -inf = nan`. -/
def fadd : PF → PF → PF
  | nan, _ => nan
  | _, nan => nan
  | pinf, ninf => nan
  | ninf, pinf => nan
  | pinf, _ => pinf
  | _, pinf => pinf
  | ninf, _ => ninf
  | _, ninf => ninf
  | num a, num b => num (a + b)

/-- IEEE multiplication: `nan` propagates, `0 × ±inf = nan`. -/
def fmul : PF → PF → PF
  | nan, _ => nan
  | _, nan => nan
  | pinf, pinf => pinf
  | pinf, ninf => ninf
  | ninf, pinf => ninf
  | ninf, ninf => pinf
  | pinf, num b => if b = 0 then nan else if b > 0 then pinf else ninf
  | ninf, num b => if b = 0 then nan else if b > 0 then ninf else pinf
  | num a, pinf => if a = 0 then nan else if a > 0 then pinf else ninf
  | num a, ninf => if a = 0 then nan else if a > 0 then ninf else pinf
  | num a, num b => num (a * b)

/-- IEEE division: `0/0 = nan`, `±x/0 = ±inf`, `inf/inf = nan` — this is
what pandas produces where plain Python would raise `ZeroDivisionError`. -/
def fdiv : PF → PF → PF
  | nan, _ => nan
  | _, nan => nan
  | pinf, pinf => nan
  | pinf, ninf => nan
  | ninf, pinf => nan
  | ninf, ninf => nan
  | pinf, num b => if b < 0 then ninf else pinf
  | ninf, num b => if b < 0 then pinf else ninf
  | num _, pinf => num 0
  | num _, ninf => num 0
  | num a, num b =>
    if b = 0 then (if a = 0 then nan else if a > 0 then pinf else ninf)
    else num (a / b)

/-- IEEE subtraction. -/
def fsub (a b : PF) : PF := fadd a (fneg b)

instance : Add PF := ⟨fadd⟩
instance : Mul PF := ⟨fmul⟩
instance : Sub PF := ⟨fsub⟩
instance : Div PF := ⟨fdiv⟩

/-- IEEE strict less-than: any comparison with `nan` is false. -/
def fltB : PF → PF → Bool
  | nan, _ => false
  | _, nan => false
  | ninf, ninf => false
  | ninf, _ => true
  | _, ninf => false
  | pinf, _ => false
  | num _, pinf => true
  | num a, num b => decide (a < b)

end PF

/-- A row of the multi-company comparison frame as consumed by
`calculate_esg_scores`: the scoring inputs are the eight indicator columns
it reads (numeric in every frame the dashboard builds); `Year` and the
renewable-energy amount pass through unread and are omitted here. -/
structure SRow where
  company : String
  accident : ℚ
  fatal : ℚ
  audit : ℚ
  carbon : ℚ
  energy : ℚ
  renewPct : ℚ
  waste : ℚ
  recycling : ℚ
  deriving DecidableEq

/-- An output row of `calculate_esg_scores`: the input row plus the derived
score columns. -/
structure ScoredRow where
  base : SRow
  accScore : PF
  fatScore : PF
  auditScore : PF
  carbonScore : PF
  energyScore : PF
  renewScore : PF
  wasteScore : PF
  recycScore : PF
  safetyScore : PF
  envScore : PF
  overall : PF
  deriving DecidableEq

/-- `Series.max()` over a numeric column (no NaN inputs in this model);
the `0` for the empty frame is never consulted (scoring bails out first). -/
def colMax (xs : List ℚ) : ℚ :=
  match xs with
  | [] => 0
  | x :: rest => rest.foldl max x

/-- The per-row score computation of `calculate_esg_scores`
(src/pages/companyReport.py:560-584), with the column maxima taken over the
whole frame `t`.  Note only the fatality denominator is guarded by
`max(·, 1)`; `0.4`/`0.6`/`1.5` are the source's literal weights. -/
def scoreRow (t : List SRow) (r : SRow) : ScoredRow :=
  let accMax := colMax (t.map SRow.accident)
  let fatMax := colMax (t.map SRow.fatal)
  let carbonMax := colMax (t.map SRow.carbon)
  let energyMax := colMax (t.map SRow.energy)
  let wasteMax := colMax (t.map SRow.waste)
  let accScore := PF.num 100 - (PF.num r.accident / PF.num accMax) * PF.num 50
  let fatScore := PF.num 100 - (PF.num r.fatal / PF.num (max fatMax 1)) * PF.num 50
  let auditScore := PF.num r.audit
  let carbonScore := PF.num 100 - (PF.num r.carbon / PF.num carbonMax) * PF.num 50
  let energyScore := PF.num 100 - (PF.num r.energy / PF.num energyMax) * PF.num 50
  let renewScore := PF.num r.renewPct * PF.num (3 / 2)
  let wasteScore := PF.num 100 - (PF.num r.waste / PF.num wasteMax) * PF.num 50
  let recycScore := PF.num r.recycling
  let safetyScore := (accScore + fatScore + auditScore) / PF.num 3
  let envScore :=
    (carbonScore + energyScore + renewScore + wasteScore + recycScore) / PF.num 5
  { base := r
    accScore := accScore
    fatScore := fatScore
    auditScore := auditScore
    carbonScore := carbonScore
    energyScore := energyScore
    renewScore := renewScore
    wasteScore := wasteScore
    recycScore := recycScore
    safetyScore := safetyScore
    envScore := envScore
    overall := safetyScore * PF.num (2 / 5) + envScore * PF.num (3 / 5) }

/-- Ascending comparison used to model the stable argsort on the
`Overall Score` key (a total preorder on all of `PF` so that the sort
lemmas apply; only its restriction to non-nan keys is ever exercised). -/
def leOverall (a b : ScoredRow) : Bool :=
  match a.overall, b.overall with
  | PF.nan, _ => true
  | _, PF.nan => false
  | PF.ninf, _ => true
  | _, PF.ninf => false
  | PF.pinf, PF.pinf => true
  | PF.num _, PF.pinf => true
  | PF.pinf, PF.num _ => false
  | PF.num a, PF.num b => decide (a ≤ b)

/-- `df.sort_values('Overall Score', ascending=False)` as pandas executes
it (`nargsort`): NaN keys are masked out and appended last in input order;
the non-NaN part is reversed, stably argsorted ascending, and the indexer
reversed again.  The stable argsort is modelled by `List.mergeSort`
(numpy's default sort is a stable insertion sort below 17 elements, which
covers every frame this page sorts, and stable sorts are extensionally
unique). -/
def sortOverallDesc (l : List ScoredRow) : List ScoredRow :=
  let nonNan := l.filter (fun s => !(s.overall == PF.nan))
  let nans := l.filter (fun s => s.overall == PF.nan)
  (List.mergeSort nonNan.reverse leOverall).reverse ++ nans

/-- `calculate_esg_scores` (src/pages/companyReport.py:554-589).  The empty
frame the dashboard produces (`pd.DataFrame([])`) has no columns at all, so
the first column access `scoring_data['Accident Rate (‰)']` raises
`KeyError`; this is the `none` branch. -/
def calculate_esg_scores (rows : List SRow) : Option (List ScoredRow) :=
  match rows with
  | [] => none
  | _ :: _ => some (sortOverallDesc (rows.map (scoreRow rows)))

example : pyInt (jstr "2025") = some 2025 := by decide
example : pyMaxByInt [jstr "2009", jstr "2025"] = some (jstr "2025") := by decide

/-! ## Claim C8 — scoring the empty table -/

/-- Claim C8 counterexample: on the empty table the dashboard produces
(`pd.DataFrame([])`, which has no columns), `calculate_esg_scores` does not
return an empty ranked table — the very first column access raises
`KeyError` (modelled `none`). -/
theorem c8_counterexample : calculate_esg_scores ([] : List SRow) ≠ some [] := by
  decide

/-- Claim C8 (amended): on the empty input table `calculate_esg_scores`
raises `KeyError` when reading the accident-rate column of the column-less
empty frame (modelled as `none`); the caller guards against this by scoring
only non-empty tables (companyReport.py:187). -/
theorem c8_amended_empty_raises : calculate_esg_scores ([] : List SRow) = none :=
  rfl

/-! ## Claim C9 — load failure yields an empty dataset, queries stay total -/

/-- Claim C9: when the backing file is missing or not valid JSON,
`load_data` catches the exception and returns the empty dict, and each of
the three query operations over that empty dataset returns an empty table
(for any requested company, company list, year — shown for `None` and any
integer year, the shapes the pages pass). -/
theorem c9_load_failure_empty :
    load_data SourceFile.missing = [] ∧
    load_data SourceFile.malformed = [] ∧
    get_latest_year_data (load_data SourceFile.missing) = some [] ∧
    get_latest_year_data (load_data SourceFile.malformed) = some [] ∧
    (∀ c : String, get_company_trend_data c (load_data SourceFile.missing) = []) ∧
    (∀ c : String, get_company_trend_data c (load_data SourceFile.malformed) = []) ∧
    (∀ cs : List String,
      get_multi_company_data cs none (load_data SourceFile.missing) = some []) ∧
    (∀ cs : List String,
      get_multi_company_data cs none (load_data SourceFile.malformed) = some []) ∧
    (∀ (cs : List String) (y : ℤ),
      get_multi_company_data cs (some (jnum (y : ℚ))) (load_data SourceFile.missing)
        = some []) ∧
    (∀ (cs : List String) (y : ℤ),
      get_multi_company_data cs (some (jnum (y : ℚ))) (load_data SourceFile.malformed)
        = some []) := by
  refine ⟨rfl, rfl, rfl, rfl, fun c => rfl, fun c => rfl,
    fun cs => rfl, fun cs => rfl, fun cs y => rfl, fun cs y => rfl⟩

/-! ## Claim C10 — year `None` with no metadata years defaults to 2025 -/

/-- Claim C10: calling `get_multi_company_data` with `year=None` over a
dataset whose metadata yields no years list silently behaves exactly like
an explicit `'2025'` query, and every record for year 2025 whose company
was requested is still returned. -/
theorem c10_year_default (cs : List String) (data : Data)
    (h : get_years data = some []) :
    get_multi_company_data cs none data
      = get_multi_company_data cs (some (jstr "2025")) data ∧
    ∃ out, get_multi_company_data cs none data = some out ∧
      ∀ p ∈ data, p.1 ≠ "metadata" →
        isStrIn (objGet p.2 "company_name") cs = true →
        eqNumInt (objGet p.2 "year") 2025 = true →
        rowMulti p.2 ∈ out := by
  have h2025 : pyInt (jstr "2025") = some 2025 := by decide
  constructor
  · simp [get_multi_company_data, h]
  · refine ⟨(data.filter
        (fun kv => kv.1 != "metadata" && isStrIn (objGet kv.2 "company_name") cs
          && eqNumInt (objGet kv.2 "year") 2025)).map (fun kv => rowMulti kv.2),
      by simp [get_multi_company_data, h, h2025], ?_⟩
    intro p hp hmeta hin hyear
    apply List.mem_map_of_mem
    apply List.mem_filter.mpr
    refine ⟨hp, ?_⟩
    simp [bne_iff_ne, hmeta, hin, hyear]

/-- Claim C10 witness: a metadata-free dataset holding one 2025 record; the
`None`-year query matches the explicit-2025 query and returns that record. -/
theorem c10_year_default_witness :
    get_years [("r1", [("company_name", jstr "A"), ("year", jnum 2025)])] = some [] ∧
    get_multi_company_data ["A"] none
        [("r1", [("company_name", jstr "A"), ("year", jnum 2025)])]
      = get_multi_company_data ["A"] (some (jstr "2025"))
        [("r1", [("company_name", jstr "A"), ("year", jnum 2025)])] ∧
    (get_multi_company_data ["A"] none
        [("r1", [("company_name", jstr "A"), ("year", jnum 2025)])]).map List.length
      = some 1 := by
  refine ⟨by decide, (c10_year_default ["A"] _ (by decide)).1, by decide⟩

/-! ## Claim C1 — multi-company snapshot row order -/

/-- Dataset for the C1 counterexample: records for companies A then C (in
the document's insertion order), both for year 2025. -/
def c1Data : Data :=
  [("r1", [("company_name", jstr "A"), ("year", jnum 2025)]),
   ("r2", [("company_name", jstr "C"), ("year", jnum 2025)]),
   ("metadata", [("companies", jarr [jstr "A", jstr "C"]),
                 ("years", jarr [jstr "2025"])])]

/-- Claim C1 counterexample: requesting `["C", "A"]` returns the rows in
the dataset's insertion order `[A, C]`, not in the requested order
`[C, A]` that the claim prescribes. -/
theorem c1_counterexample :
    (get_multi_company_data ["C", "A"] (some (jstr "2025")) c1Data).map
        (fun rs => rs.map Row.company)
      = some [jstr "A", jstr "C"] ∧
    (get_multi_company_data ["C", "A"] (some (jstr "2025")) c1Data).map
        (fun rs => rs.map Row.company)
      ≠ some [jstr "C", jstr "A"] := by
  exact ⟨by decide, by decide⟩

/-- Claim C1 (amended): for a parsable requested year,
`get_multi_company_data` returns one row per dataset record whose
`company_name` is in the requested list and whose `year` equals the
requested year (requested companies with no matching record are silently
omitted), and the rows appear in the dataset's insertion order — a sublist
of the projected document — not in requested-list order. -/
theorem c1_amended (cs : List String) (y : JVal) (n : ℤ) (data : Data)
    (h : pyInt y = some n) :
    ∃ out, get_multi_company_data cs (some y) data = some out ∧
      (∀ r ∈ out, ∃ p ∈ data, p.1 ≠ "metadata" ∧
        isStrIn (objGet p.2 "company_name") cs = true ∧
        eqNumInt (objGet p.2 "year") n = true ∧ r = rowMulti p.2) ∧
      (∀ p ∈ data, p.1 ≠ "metadata" →
        isStrIn (objGet p.2 "company_name") cs = true →
        eqNumInt (objGet p.2 "year") n = true → rowMulti p.2 ∈ out) ∧
      out.Sublist (data.map (fun p => rowMulti p.2)) := by
  refine ⟨(data.filter
      (fun kv => kv.1 != "metadata" && isStrIn (objGet kv.2 "company_name") cs
        && eqNumInt (objGet kv.2 "year") n)).map (fun kv => rowMulti kv.2),
    by simp [get_multi_company_data, h], ?_, ?_, ?_⟩
  · intro r hr
    obtain ⟨p, hpf, rfl⟩ := List.mem_map.mp hr
    obtain ⟨hp, hpred⟩ := List.mem_filter.mp hpf
    simp only [Bool.and_eq_true, bne_iff_ne, ne_eq] at hpred
    exact ⟨p, hp, hpred.1.1, hpred.1.2, hpred.2, rfl⟩
  · intro p hp hmeta hin hyear
    apply List.mem_map_of_mem
    apply List.mem_filter.mpr
    exact ⟨hp, by simp [bne_iff_ne, hmeta, hin, hyear]⟩
  · exact List.Sublist.map _ (List.filter_sublist data)

/-- Claim C1 witness: the amended theorem applied to the counterexample
dataset and the request `["C", "A"]` for year `'2025'`. -/
theorem c1_amended_witness :
    pyInt (jstr "2025") = some 2025 ∧
    ∃ out, get_multi_company_data ["C", "A"] (some (jstr "2025")) c1Data = some out ∧
      (∀ r ∈ out, ∃ p ∈ c1Data, p.1 ≠ "metadata" ∧
        isStrIn (objGet p.2 "company_name") ["C", "A"] = true ∧
        eqNumInt (objGet p.2 "year") 2025 = true ∧ r = rowMulti p.2) ∧
      (∀ p ∈ c1Data, p.1 ≠ "metadata" →
        isStrIn (objGet p.2 "company_name") ["C", "A"] = true →
        eqNumInt (objGet p.2 "year") 2025 = true → rowMulti p.2 ∈ out) ∧
      out.Sublist (c1Data.map (fun p => rowMulti p.2)) :=
  ⟨by decide, c1_amended ["C", "A"] (jstr "2025") 2025 c1Data (by decide)⟩

/-! ## Claim C4 — defaulting of the optional renewable-energy amount -/

/-- Dataset for the C4 counterexample: the record carries no
`renewable_energy_amount` key at all. -/
def c4Data : Data :=
  [("r1", [("company_name", jstr "A"), ("year", jnum 2025),
           ("accident_rate", jnum 1)])]

/-- Claim C4 counterexample: a record with the renewable-energy-amount
field absent projects to `0` — `.get('renewable_energy_amount', 0)`
coerces absence to zero exactly like every other numeric indicator,
contradicting the claimed null-preservation for absent values. -/
theorem c4_counterexample :
    (get_multi_company_data ["A"] (some (jnum 2025)) c4Data).map
        (fun rs => rs.map Row.renewAmount)
      = some [jnum 0] ∧ jnum 0 ≠ jnull := by
  exact ⟨by decide, by decide⟩

/-- Claim C4 (amended): the projection preserves a null
`renewable_energy_amount` only when the key is present with value `null`
(Python `dict.get` returns the stored `None`); an absent key defaults to
`0` like the other numeric indicators, and a present numeric value is kept
as stored. -/
theorem c4_amended (cd : Obj) (cs : List String) (y : ℤ) (k : String)
    (hc : isStrIn (objGet cd "company_name") cs = true)
    (hy : eqNumInt (objGet cd "year") y = true)
    (hk : k ≠ "metadata") :
    ∃ r, get_multi_company_data cs (some (jnum (y : ℚ))) [(k, cd)] = some [r] ∧
      r.renewAmount = objGetD cd "renewable_energy_amount" (jnum 0) ∧
      (objGet cd "renewable_energy_amount" = some jnull → r.renewAmount = jnull) ∧
      (objGet cd "renewable_energy_amount" = none → r.renewAmount = jnum 0) ∧
      (∀ q : ℚ, objGet cd "renewable_energy_amount" = some (jnum q) →
        r.renewAmount = jnum q) := by
  have hy' : pyInt (jnum ((y : ℚ))) = some y := by
    simp [pyInt, Rat.num_intCast, Rat.den_intCast]
  have hk' : (k != "metadata") = true := bne_iff_ne.mpr hk
  refine ⟨rowMulti cd, ?_, rfl, ?_, ?_, ?_⟩
  · simp [get_multi_company_data, hy', List.filter, hk', hc, hy]
  · intro h; simp [rowMulti, mkRow, objGetD, h]
  · intro h; simp [rowMulti, mkRow, objGetD, h]
  · intro q h; simp [rowMulti, mkRow, objGetD, h]

/-- Claim C4 witness: the amended theorem applied to a record storing an
explicit `null` (the null is preserved), plus its own hypotheses checked on
that record. -/
theorem c4_amended_witness :
    isStrIn (objGet [("company_name", jstr "A"), ("year", jnum 2025),
        ("renewable_energy_amount", jnull)] "company_name") ["A"] = true ∧
    eqNumInt (objGet [("company_name", jstr "A"), ("year", jnum 2025),
        ("renewable_energy_amount", jnull)] "year") 2025 = true ∧
    ∃ r, get_multi_company_data ["A"] (some (jnum ((2025 : ℤ) : ℚ)))
        [("r1", [("company_name", jstr "A"), ("year", jnum 2025),
                 ("renewable_energy_amount", jnull)])] = some [r] ∧
      r.renewAmount = objGetD [("company_name", jstr "A"), ("year", jnum 2025),
        ("renewable_energy_amount", jnull)] "renewable_energy_amount" (jnum 0) ∧
      (objGet [("company_name", jstr "A"), ("year", jnum 2025),
          ("renewable_energy_amount", jnull)] "renewable_energy_amount" = some jnull →
        r.renewAmount = jnull) ∧
      (objGet [("company_name", jstr "A"), ("year", jnum 2025),
          ("renewable_energy_amount", jnull)] "renewable_energy_amount" = none →
        r.renewAmount = jnum 0) ∧
      (∀ q : ℚ, objGet [("company_name", jstr "A"), ("year", jnum 2025),
          ("renewable_energy_amount", jnull)] "renewable_energy_amount"
            = some (jnum q) → r.renewAmount = jnum q) :=
  ⟨by decide, by decide,
    c4_amended [("company_name", jstr "A"), ("year", jnum 2025),
      ("renewable_energy_amount", jnull)] ["A"] 2025 "r1"
      (by decide) (by decide) (by decide)⟩

/-! ## Claim C5 — input schema variants -/

/-- Dataset for the C5 counterexample: a flat record using the §3 field
names `fatalities` and `safety_audit_compliance` (the code instead reads
`fatality_rate` and `safety_inspection_compliance_rate`). -/
def c5Data : Data :=
  [("r1", [("company_name", jstr "A"), ("year", jnum 2025),
           ("accident_rate", jnum 1), ("fatalities", jnum 7),
           ("safety_audit_compliance", jnum 99)]),
   ("metadata", [("years", jarr [jnum 2025]), ("companies", jarr [jstr "A"])])]

/-- Claim C5 counterexample: the source record states `fatalities = 7`, but
the loaded row carries `0` for the fatality indicator — the loader looks
up the key `fatality_rate`, not the §3 name `fatalities`. -/
theorem c5_counterexample :
    (get_latest_year_data c5Data).map (fun rs => rs.map Row.fatalities)
      = some [jnum 0] ∧
    (get_latest_year_data c5Data).map (fun rs => rs.map Row.fatalities)
      ≠ some [jnum 7] := by
  exact ⟨by decide, by decide⟩

/-- Claim C5 (amended): only the flat variant written with the code's own
field names (`fatality_rate` and `safety_inspection_compliance_rate`; the
remaining seven indicator names as in §3) round-trips its stored values
into the loaded row; the legacy nested variant keyed by a top-level
`"companies"` object is not normalized — as long as no company is literally
named `"year"`, its entry has no matching integer `year` field and the
latest-year snapshot contains no rows from it. -/
theorem c5_amended :
    (∀ (k cname : String) (yr : ℤ) (acc fat aud carb en rp ra cw rr : ℚ),
      k ≠ "metadata" →
      get_latest_year_data
          [(k, [("company_name", jstr cname), ("year", jnum ((yr : ℚ))),
                ("accident_rate", jnum acc), ("fatality_rate", jnum fat),
                ("safety_inspection_compliance_rate", jnum aud),
                ("carbon_emissions", jnum carb), ("energy_consumption", jnum en),
                ("renewable_energy_ratio", jnum rp),
                ("renewable_energy_amount", jnum ra),
                ("construction_waste", jnum cw), ("recycling_rate", jnum rr)]),
           ("metadata", [("years", jarr [jnum ((yr : ℚ))])])]
        = some [{ company := jstr cname, year := jnum ((yr : ℚ)),
                  accident_rate := jnum acc, fatalities := jnum fat,
                  safety_audit := jnum aud, carbon_emissions := jnum carb,
                  energy_consumption := jnum en, renewPct := jnum rp,
                  renewAmount := jnum ra, construction_waste := jnum cw,
                  recycling_rate := jnum rr }]) ∧
    (∀ (inner meta : Obj) (ys : List JVal) (ly : JVal) (n : ℤ),
      objGet meta "years" = some (jarr ys) → ys ≠ [] →
      pyMaxByInt ys = some ly → pyInt ly = some n →
      objGet inner "year" = none →
      get_latest_year_data [("companies", inner), ("metadata", meta)] = some []) := by
  constructor
  · intro k cname yr acc fat aud carb en rp ra cw rr hk
    have hk' : (k == "metadata") = false := beq_eq_false_iff_ne.mpr hk
    have hk'' : (k != "metadata") = true := bne_iff_ne.mpr hk
    have hyr : pyInt (jnum ((yr : ℚ))) = some yr := by
      simp [pyInt, Rat.num_intCast, Rat.den_intCast]
    simp [get_latest_year_data, get_years, dataGet, List.find?, hk', hk'',
      pyMaxByInt, pyMaxGo, hyr, List.filter, eqNumInt, objGet, objGetD,
      rowLatest, mkRow]
  · intro inner meta ys ly n hys hne hmax hint hno
    have hysE : (ys.isEmpty) = false := by
      cases ys with
      | nil => exact absurd rfl hne
      | cons a l => rfl
    simp [get_latest_year_data, get_years, dataGet, List.find?, hys, hysE,
      hmax, hint, List.filter, eqNumInt, hno]

/-- Claim C5 witness: the amended theorem at a concrete record and a
concrete nested-variant document. -/
theorem c5_amended_witness :
    get_latest_year_data
        [("r1", [("company_name", jstr "A"), ("year", jnum (((2025 : ℤ) : ℚ))),
                 ("accident_rate", jnum 1), ("fatality_rate", jnum 2),
                 ("safety_inspection_compliance_rate", jnum 3),
                 ("carbon_emissions", jnum 4), ("energy_consumption", jnum 5),
                 ("renewable_energy_ratio", jnum 6),
                 ("renewable_energy_amount", jnum 7),
                 ("construction_waste", jnum 8), ("recycling_rate", jnum 9)]),
         ("metadata", [("years", jarr [jnum (((2025 : ℤ) : ℚ))])])]
      = some [{ company := jstr "A", year := jnum (((2025 : ℤ) : ℚ)),
                accident_rate := jnum 1, fatalities := jnum 2,
                safety_audit := jnum 3, carbon_emissions := jnum 4,
                energy_consumption := jnum 5, renewPct := jnum 6,
                renewAmount := jnum 7, construction_waste := jnum 8,
                recycling_rate := jnum 9 }] ∧
    get_latest_year_data
        [("companies", [("CompA", jobj [("2025", jobj [])])]),
         ("metadata", [("years", jarr [jstr "2025"])])]
      = some [] :=
  ⟨(c5_amended.1 "r1" "A" 2025 1 2 3 4 5 6 7 8 9 (by decide)),
   (c5_amended.2 [("CompA", jobj [("2025", jobj [])])]
      [("years", jarr [jstr "2025"])] [jstr "2025"] (jstr "2025") 2025
      (by decide) (by decide) (by decide) (by decide) (by decide))⟩

/-! ## Claim C7 — latest-year selection -/

/-- Dataset for the C7 counterexample: metadata years stored as strings
(with `"2009" < "2025"` also lexicographically irrelevant here), and the
single record stores its `year` as the string `"2025"`. -/
def c7Data : Data :=
  [("r1", [("company_name", jstr "A"), ("year", jstr "2025")]),
   ("metadata", [("years", jarr [jstr "2009", jstr "2025"])])]

/-- Claim C7 counterexample: the numeric maximum `"2025"` is selected, but
the record storing `year` as the string `"2025"` is not returned — Python
`"2025" == 2025` is `False`, so only integer-stored years match and the
snapshot comes back empty where the claim promises one row. -/
theorem c7_counterexample :
    pyMaxByInt [jstr "2009", jstr "2025"] = some (jstr "2025") ∧
    get_latest_year_data c7Data = some [] := by
  exact ⟨by decide, by decide⟩

/-- Specification of the Python `max(..., key=int)` scan: given that the
current key parses and every remaining key parses, the scan succeeds and
returns an element with a maximal key. -/
theorem pyMaxGo_spec (rest : List JVal) : ∀ (cur : JVal) (curKey : ℤ),
    pyInt cur = some curKey →
    (∀ y ∈ rest, (pyInt y).isSome) →
    ∃ ly n, pyMaxGo cur curKey rest = some ly ∧ pyInt ly = some n ∧
      (ly = cur ∨ ly ∈ rest) ∧ curKey ≤ n ∧
      ∀ y ∈ rest, ∀ m, pyInt y = some m → m ≤ n := by
  induction rest with
  | nil =>
    intro cur curKey hcur _
    exact ⟨cur, curKey, rfl, hcur, Or.inl rfl, le_refl _, by simp⟩
  | cons y rest ih =>
    intro cur curKey hcur hall
    obtain ⟨k, hk⟩ : ∃ k, pyInt y = some k := by
      have := hall y (List.mem_cons_self y rest)
      cases hpy : pyInt y with
      | none => rw [hpy] at this; exact absurd this (by simp)
      | some k => exact ⟨k, rfl⟩
    have hall' : ∀ z ∈ rest, (pyInt z).isSome :=
      fun z hz => hall z (List.mem_cons_of_mem y hz)
    by_cases hlt : curKey < k
    · obtain ⟨ly, n, h1, h2, h3, h4, h5⟩ := ih y k hk hall'
      refine ⟨ly, n, ?_, h2, ?_, ?_, ?_⟩
      · simp [pyMaxGo, hk, hlt, h1]
      · rcases h3 with h3 | h3
        · exact Or.inr (h3 ▸ List.mem_cons_self y rest)
        · exact Or.inr (List.mem_cons_of_mem y h3)
      · exact le_of_lt (lt_of_lt_of_le hlt h4)
      · intro z hz m hm
        rcases List.mem_cons.mp hz with hz | hz
        · have : m = k := by rw [hz] at hm; rw [hm] at hk; exact Option.some_inj.mp hk
          exact this ▸ h4
        · exact h5 z hz m hm
    · obtain ⟨ly, n, h1, h2, h3, h4, h5⟩ := ih cur curKey hcur hall'
      refine ⟨ly, n, ?_, h2, ?_, h4, ?_⟩
      · simp [pyMaxGo, hk, hlt, h1]
      · rcases h3 with h3 | h3
        · exact Or.inl h3
        · exact Or.inr (List.mem_cons_of_mem y h3)
      · intro z hz m hm
        rcases List.mem_cons.mp hz with hz | hz
        · have hmk : m = k := by rw [hz] at hm; rw [hm] at hk; exact Option.some_inj.mp hk
          have : k ≤ curKey := le_of_not_lt hlt
          exact hmk ▸ le_trans this h4
        · exact h5 z hz m hm

/-- Specification of `max(years, key=int)`: on a non-empty list of parsable
years it returns a member whose integer key dominates every key. -/
theorem pyMaxByInt_spec (ys : List JVal) (hne : ys ≠ [])
    (hall : ∀ y ∈ ys, (pyInt y).isSome) :
    ∃ ly n, pyMaxByInt ys = some ly ∧ ly ∈ ys ∧ pyInt ly = some n ∧
      ∀ y ∈ ys, ∀ m, pyInt y = some m → m ≤ n := by
  cases ys with
  | nil => exact absurd rfl hne
  | cons y rest =>
    obtain ⟨k, hk⟩ : ∃ k, pyInt y = some k := by
      have := hall y (List.mem_cons_self y rest)
      cases hpy : pyInt y with
      | none => rw [hpy] at this; exact absurd this (by simp)
      | some k => exact ⟨k, rfl⟩
    obtain ⟨ly, n, h1, h2, h3, h4, h5⟩ :=
      pyMaxGo_spec rest y k hk (fun z hz => hall z (List.mem_cons_of_mem y hz))
    refine ⟨ly, n, ?_, ?_, h2, ?_⟩
    · simp [pyMaxByInt, hk, h1]
    · rcases h3 with h3 | h3
      · exact h3 ▸ List.mem_cons_self y rest
      · exact List.mem_cons_of_mem y h3
    · intro z hz m hm
      rcases List.mem_cons.mp hz with hz | hz
      · have hmk : m = k := by rw [hz] at hm; rw [hm] at hk; exact Option.some_inj.mp hk
        exact hmk ▸ h4
      · exact h5 z hz m hm

/-- A record is counted into the latest-year snapshot iff its `year` field
is a *number* equal to the selected integer year. -/
theorem eqNumInt_iff (v : Option JVal) (n : ℤ) :
    eqNumInt v n = true ↔ v = some (jnum ((n : ℚ))) := by
  cases v with
  | none => simp [eqNumInt]
  | some j =>
    cases j with
    | jnum q => simp [eqNumInt]
    | jnull => simp [eqNumInt]
    | jstr s => simp [eqNumInt]
    | jobj o => simp [eqNumInt]
    | jarr a => simp [eqNumInt]

/-- Claim C7 (amended): over a dataset with a non-empty, parsable years
list, `get_latest_year_data` selects the numerically greatest year (years
compared via `int(·)`, never lexicographically) and returns exactly the
records whose `year` field is stored as a *number* equal to that year;
records storing the year as a string are omitted. -/
theorem c7_amended (data : Data) (ys : List JVal)
    (h1 : get_years data = some ys) (hne : ys ≠ [])
    (hall : ∀ y ∈ ys, (pyInt y).isSome) :
    ∃ ly n out, pyMaxByInt ys = some ly ∧ ly ∈ ys ∧ pyInt ly = some n ∧
      (∀ y ∈ ys, ∀ m, pyInt y = some m → m ≤ n) ∧
      get_latest_year_data data = some out ∧
      (∀ p ∈ data, p.1 ≠ "metadata" →
        objGet p.2 "year" = some (jnum ((n : ℚ))) → rowLatest p.2 ∈ out) ∧
      (∀ r ∈ out, ∃ p ∈ data, p.1 ≠ "metadata" ∧
        objGet p.2 "year" = some (jnum ((n : ℚ))) ∧ r = rowLatest p.2) := by
  obtain ⟨ly, n, hmax, hmem, hint, hdom⟩ := pyMaxByInt_spec ys hne hall
  have hysE : (ys.isEmpty) = false := by
    cases ys with
    | nil => exact absurd rfl hne
    | cons a l => rfl
  refine ⟨ly, n, (data.filter
      (fun kv => kv.1 != "metadata" && eqNumInt (objGet kv.2 "year") n)).map
      (fun kv => rowLatest kv.2), hmax, hmem, hint, hdom, ?_, ?_, ?_⟩
  · simp [get_latest_year_data, h1, hysE, hmax, hint]
  · intro p hp hmeta hyear
    apply List.mem_map_of_mem
    apply List.mem_filter.mpr
    refine ⟨hp, ?_⟩
    simp [bne_iff_ne, hmeta, (eqNumInt_iff _ _).mpr hyear]
  · intro r hr
    obtain ⟨p, hpf, rfl⟩ := List.mem_map.mp hr
    obtain ⟨hp, hpred⟩ := List.mem_filter.mp hpf
    simp only [Bool.and_eq_true, bne_iff_ne, ne_eq] at hpred
    exact ⟨p, hp, hpred.1, (eqNumInt_iff _ _).mp hpred.2, rfl⟩

/-- Claim C7 witness: string years `{"2009", "2025"}` select 2025
numerically, and the record storing `year` as the integer 2025 is
returned. -/
theorem c7_amended_witness :
    get_years [("r1", [("company_name", jstr "A"), ("year", jnum 2025)]),
               ("metadata", [("years", jarr [jstr "2009", jstr "2025"])])]
      = some [jstr "2009", jstr "2025"] ∧
    ∃ ly n out,
      pyMaxByInt [jstr "2009", jstr "2025"] = some ly ∧
      ly ∈ [jstr "2009", jstr "2025"] ∧ pyInt ly = some n ∧
      (∀ y ∈ [jstr "2009", jstr "2025"], ∀ m, pyInt y = some m → m ≤ n) ∧
      get_latest_year_data
          [("r1", [("company_name", jstr "A"), ("year", jnum 2025)]),
           ("metadata", [("years", jarr [jstr "2009", jstr "2025"])])]
        = some out ∧
      (∀ p ∈ [("r1", [("company_name", jstr "A"), ("year", jnum 2025)]),
              ("metadata", [("years", jarr [jstr "2009", jstr "2025"])])],
        p.1 ≠ "metadata" → objGet p.2 "year" = some (jnum ((n : ℚ))) →
          rowLatest p.2 ∈ out) ∧
      (∀ r ∈ out, ∃ p ∈ [("r1", [("company_name", jstr "A"), ("year", jnum 2025)]),
              ("metadata", [("years", jarr [jstr "2009", jstr "2025"])])],
        p.1 ≠ "metadata" ∧ objGet p.2 "year" = some (jnum ((n : ℚ))) ∧
          r = rowLatest p.2) :=
  ⟨by decide,
   c7_amended
     [("r1", [("company_name", jstr "A"), ("year", jnum 2025)]),
      ("metadata", [("years", jarr [jstr "2009", jstr "2025"])])]
     [jstr "2009", jstr "2025"] (by decide) (by decide) (by decide)⟩

/-! ## Arithmetic and sorting lemmas for the scoring engine -/

/-- Addition of finite cells is exact. -/
theorem PF.num_add_num (a b : ℚ) : PF.num a + PF.num b = PF.num (a + b) := rfl

/-- Multiplication of finite cells is exact. -/
theorem PF.num_mul_num (a b : ℚ) : PF.num a * PF.num b = PF.num (a * b) := rfl

/-- Subtraction of finite cells is exact. -/
theorem PF.num_sub_num (a b : ℚ) : PF.num a - PF.num b = PF.num (a - b) := by
  show PF.fsub (PF.num a) (PF.num b) = PF.num (a - b)
  simp [PF.fsub, PF.fneg, PF.fadd, sub_eq_add_neg]

/-- Division of finite cells by a nonzero finite cell is exact. -/
theorem PF.num_div_num (a b : ℚ) (h : b ≠ 0) :
    PF.num a / PF.num b = PF.num (a / b) := by
  show PF.fdiv (PF.num a) (PF.num b) = PF.num (a / b)
  simp [PF.fdiv, h]

/-- The comparison used for the overall-score argsort is transitive. -/
theorem leOverall_trans (a b c : ScoredRow) :
    leOverall a b → leOverall b c → leOverall a c := by
  intro h1 h2
  cases ha : a.overall <;> cases hb : b.overall <;> cases hc : c.overall <;>
    simp_all [leOverall] <;> linarith

/-- The comparison used for the overall-score argsort is total. -/
theorem leOverall_total (a b : ScoredRow) : leOverall a b || leOverall b a := by
  cases ha : a.overall <;> cases hb : b.overall <;>
    simp_all [leOverall] <;> exact le_total _ _

/-- Rows with the same overall score compare `≤` in both directions. -/
theorem leOverall_of_eq (a b : ScoredRow) (h : a.overall = b.overall) :
    leOverall a b = true := by
  cases hb : b.overall <;> simp_all [leOverall]

/-- Descending order: a key that is `≤`-above another is not IEEE-below
it. -/
theorem fltB_false_of_le (a b : ScoredRow) (h : leOverall b a = true) :
    PF.fltB a.overall b.overall = false := by
  cases ha : a.overall <;> cases hb : b.overall <;>
    simp_all [leOverall, PF.fltB] <;> linarith

/-- Nothing is IEEE-below a `nan` key. -/
theorem fltB_nan_right (a b : ScoredRow) (h : b.overall = PF.nan) :
    PF.fltB a.overall b.overall = false := by
  cases ha : a.overall <;> simp_all [PF.fltB]

/-- The modelled pandas descending sort permutes its input. -/
theorem perm_sortOverallDesc (l : List ScoredRow) :
    List.Perm (sortOverallDesc l) l := by
  unfold sortOverallDesc
  have h1 : List.Perm (List.mergeSort (l.filter
        fun s => !(s.overall == PF.nan)).reverse leOverall).reverse
      (l.filter fun s => !(s.overall == PF.nan)) :=
    (List.reverse_perm _).trans
      ((List.mergeSort_perm _ _).trans (List.reverse_perm _))
  have h2 : l.filter (fun s => s.overall == PF.nan)
      = l.filter (fun s => !(!(s.overall == PF.nan))) := by
    apply List.filter_congr
    intro a _
    simp
  refine List.Perm.trans (List.Perm.append_right _ h1) ?_
  rw [h2]
  exact List.filter_append_perm _ l

/-- Stability of the modelled argsort: the rows carrying any fixed overall
score come out of `mergeSort` in their input order. -/
theorem mergeSort_filter_overall (M : List ScoredRow) (v : PF) :
    (List.mergeSort M leOverall).filter (fun s => s.overall == v)
      = M.filter (fun s => s.overall == v) := by
  have hpair : (M.filter (fun s => s.overall == v)).Pairwise
      (fun a b => leOverall a b = true) := by
    apply List.pairwise_of_forall_mem_list
    intro a ha b hb
    have ha' : a.overall = v := by
      have := (List.mem_filter.mp ha).2
      exact beq_iff_eq.mp this
    have hb' : b.overall = v := by
      have := (List.mem_filter.mp hb).2
      exact beq_iff_eq.mp this
    exact leOverall_of_eq a b (ha'.trans hb'.symm)
  have hsub : (M.filter (fun s => s.overall == v)).Sublist
      (List.mergeSort M leOverall) :=
    List.sublist_mergeSort leOverall_trans leOverall_total hpair
      (List.filter_sublist M)
  have hidem : (M.filter (fun s => s.overall == v)).filter
      (fun s => s.overall == v) = M.filter (fun s => s.overall == v) :=
    List.filter_eq_self.mpr (fun a ha => (List.mem_filter.mp ha).2)
  have hsub2 : (M.filter (fun s => s.overall == v)).Sublist
      ((List.mergeSort M leOverall).filter (fun s => s.overall == v)) := by
    have := List.Sublist.filter (fun s => s.overall == v) hsub
    rwa [hidem] at this
  have hlen : ((List.mergeSort M leOverall).filter
        (fun s => s.overall == v)).length
      = (M.filter (fun s => s.overall == v)).length :=
    (List.Perm.filter _ (List.mergeSort_perm M leOverall)).length_eq
  exact (List.Sublist.eq_of_length hsub2 hlen.symm).symm

/-- A finite overall score never `==` the `nan` key (used to evaluate the
NaN mask on concrete frames). -/
theorem PF.num_beq_nan (q : ℚ) : (PF.num q == PF.nan) = false := by
  simp [beq_eq_false_iff_ne]

/-! ## Claim C6 — ranking order and tie stability -/

/-- Claim C6: for every non-empty input table the ranked table is sorted by
overall score in descending order (no later row is IEEE-greater than an
earlier one, NaN scores last), and the sort is stable: for every score
value, the rows carrying it appear in exactly their input order ("first
seen wins") — this models pandas' descending sort, which reverses a stable
ascending argsort of the reversed frame and re-reverses the indexer, and is
exact for the at-most-five-row frames this page sorts. -/
theorem c6_ranking_sorted_stable (rows : List SRow) (hne : rows ≠ []) :
    ∃ out, calculate_esg_scores rows = some out ∧
      out.Pairwise (fun a b => PF.fltB a.overall b.overall = false) ∧
      ∀ v : PF, out.filter (fun s => s.overall == v)
        = (rows.map (scoreRow rows)).filter (fun s => s.overall == v) := by
  obtain ⟨r0, rest, rfl⟩ : ∃ r0 rest, rows = r0 :: rest := by
    cases rows with
    | nil => exact absurd rfl hne
    | cons a l => exact ⟨a, l, rfl⟩
  refine ⟨sortOverallDesc ((r0 :: rest).map (scoreRow (r0 :: rest))), rfl, ?_, ?_⟩
  · set S := (r0 :: rest).map (scoreRow (r0 :: rest)) with hS
    have hsorted : (List.mergeSort (S.filter
          fun s => !(s.overall == PF.nan)).reverse leOverall).Pairwise
        (fun a b => leOverall a b = true) :=
      List.sorted_mergeSort leOverall_trans leOverall_total _
    have hrev : ((List.mergeSort (S.filter
          fun s => !(s.overall == PF.nan)).reverse leOverall).reverse).Pairwise
        (fun a b => leOverall b a = true) :=
      List.pairwise_reverse.mpr hsorted
    apply List.pairwise_append.mpr
    refine ⟨hrev.imp (fun h => fltB_false_of_le _ _ h), ?_, ?_⟩
    · apply List.pairwise_of_forall_mem_list
      intro a _ b hb
      have hb' : b.overall = PF.nan := beq_iff_eq.mp (List.mem_filter.mp hb).2
      exact fltB_nan_right a b hb'
    · intro a _ b hb
      have hb' : b.overall = PF.nan := beq_iff_eq.mp (List.mem_filter.mp hb).2
      exact fltB_nan_right a b hb'
  · intro v
    set S := (r0 :: rest).map (scoreRow (r0 :: rest)) with hS
    show (sortOverallDesc S).filter (fun s => s.overall == v)
        = S.filter (fun s => s.overall == v)
    unfold sortOverallDesc
    rw [List.filter_append]
    by_cases hv : v = PF.nan
    · subst hv
      have h1 : ((List.mergeSort (S.filter
            fun s => !(s.overall == PF.nan)).reverse leOverall).reverse).filter
          (fun s => s.overall == PF.nan) = [] := by
        apply List.filter_eq_nil_iff.mpr
        intro a ha
        have : a ∈ S.filter (fun s => !(s.overall == PF.nan)) := by
          have h2 := List.mem_reverse.mp ha
          have h3 := List.mem_mergeSort.mp h2
          exact List.mem_reverse.mp h3
        have := (List.mem_filter.mp this).2
        simp only [Bool.not_eq_true'] at this
        simp [this]
      have h2 : (S.filter (fun s => s.overall == PF.nan)).filter
          (fun s => s.overall == PF.nan) = S.filter (fun s => s.overall == PF.nan) :=
        List.filter_eq_self.mpr (fun a ha => (List.mem_filter.mp ha).2)
      rw [h1, h2, List.nil_append]
    · have h1 : (S.filter (fun s => s.overall == PF.nan)).filter
          (fun s => s.overall == v) = [] := by
        apply List.filter_eq_nil_iff.mpr
        intro a ha
        have ha' : a.overall = PF.nan := beq_iff_eq.mp (List.mem_filter.mp ha).2
        simp [ha', Ne.symm hv]
      rw [h1, List.append_nil, List.filter_reverse, mergeSort_filter_overall,
        List.filter_reverse, List.reverse_reverse, List.filter_filter]
      apply List.filter_congr
      intro a _
      by_cases ha : a.overall = v
      · have hv' : (a.overall == PF.nan) = false := by
          rw [ha]; exact beq_eq_false_iff_ne.mpr hv
        simp [ha, hv', hv]
      · have ha' : (a.overall == v) = false := beq_eq_false_iff_ne.mpr ha
        simp [ha']

/-- Concrete first comparison row used by the scoring witnesses. -/
def c6RowA : SRow := ⟨"A", 1, 0, 98, 1000, 50, 40, 200, 90⟩

/-- Concrete second comparison row used by the scoring witnesses. -/
def c6RowB : SRow := ⟨"B", 2, 1, 95, 2000, 80, 20, 400, 70⟩

/-- Concrete row tied with `c6TieB` on every indicator. -/
def c6TieA : SRow := ⟨"A", 1, 0, 98, 1000, 50, 40, 200, 90⟩

/-- Concrete row tied with `c6TieA` on every indicator. -/
def c6TieB : SRow := ⟨"B", 1, 0, 98, 1000, 50, 40, 200, 90⟩

/-- Claim C6 witness: the ranking theorem applied to a concrete two-row
table, plus a direct evaluation showing that two fully tied companies come
back in their input order (first seen wins). -/
theorem c6_ranking_witness :
    (∃ out, calculate_esg_scores [c6RowA, c6RowB] = some out ∧
      out.Pairwise (fun a b => PF.fltB a.overall b.overall = false) ∧
      ∀ v : PF, out.filter (fun s => s.overall == v)
        = ([c6RowA, c6RowB].map (scoreRow [c6RowA, c6RowB])).filter
            (fun s => s.overall == v)) ∧
    (calculate_esg_scores [c6TieA, c6TieB]).map
        (fun l => l.map (fun s => s.base.company)) = some ["A", "B"] :=
  ⟨c6_ranking_sorted_stable [c6RowA, c6RowB] (by decide),
   by norm_num [calculate_esg_scores, sortOverallDesc, scoreRow, colMax,
     leOverall, c6TieA, c6TieB, PF.num_div_num, PF.num_mul_num,
     PF.num_sub_num, PF.num_add_num, PF.num_beq_nan, List.mergeSort,
     List.merge]⟩

/-! ## Claim C2 — the scoring formulas -/

/-- Claim C2 counterexample: on a one-row table with `fatalities = 1/2`,
the claimed formula `100 − (value/max)×50` gives 50, but the code divides
by `max(col.max(), 1) = 1` and produces 75. -/
theorem c2_counterexample :
    (calculate_esg_scores [⟨"F", 1, 1/2, 98, 1000, 50, 40, 200, 90⟩]).map
        (fun l => l.map ScoredRow.fatScore) = some [PF.num 75] ∧
    PF.num 75 ≠ PF.num (100 - ((1 : ℚ)/2) / ((1 : ℚ)/2) * 50) := by
  constructor
  · norm_num [calculate_esg_scores, sortOverallDesc, scoreRow, colMax,
      leOverall, PF.num_div_num, PF.num_mul_num, PF.num_sub_num,
      PF.num_add_num, PF.num_beq_nan]
  · norm_num

/-- Claim C2 (amended): for every non-empty table whose accident, carbon,
energy and waste maxima are nonzero, every ranked row's scores follow the
§4.4 formulas — except that the fatality denominator is `max(fatality
maximum, 1)`, not the fatality maximum itself; the audit and recycling
sub-scores are the raw percentages, the renewable sub-score is the raw
ratio × 1.5 unclamped, the category scores are unweighted means and
`overall = safety × 0.4 + environmental × 0.6`. -/
theorem c2_scoring_formulas (rows : List SRow) (hne : rows ≠ [])
    (hacc : colMax (rows.map SRow.accident) ≠ 0)
    (hcar : colMax (rows.map SRow.carbon) ≠ 0)
    (hen : colMax (rows.map SRow.energy) ≠ 0)
    (hwa : colMax (rows.map SRow.waste) ≠ 0) :
    ∃ out, calculate_esg_scores rows = some out ∧ ∀ s ∈ out,
      s.accScore = PF.num (100 - s.base.accident / colMax (rows.map SRow.accident) * 50) ∧
      s.fatScore = PF.num (100 - s.base.fatal / max (colMax (rows.map SRow.fatal)) 1 * 50) ∧
      s.auditScore = PF.num s.base.audit ∧
      s.carbonScore = PF.num (100 - s.base.carbon / colMax (rows.map SRow.carbon) * 50) ∧
      s.energyScore = PF.num (100 - s.base.energy / colMax (rows.map SRow.energy) * 50) ∧
      s.renewScore = PF.num (s.base.renewPct * (3 / 2)) ∧
      s.wasteScore = PF.num (100 - s.base.waste / colMax (rows.map SRow.waste) * 50) ∧
      s.recycScore = PF.num s.base.recycling ∧
      s.safetyScore = PF.num
        (((100 - s.base.accident / colMax (rows.map SRow.accident) * 50)
          + (100 - s.base.fatal / max (colMax (rows.map SRow.fatal)) 1 * 50)
          + s.base.audit) / 3) ∧
      s.envScore = PF.num
        (((100 - s.base.carbon / colMax (rows.map SRow.carbon) * 50)
          + (100 - s.base.energy / colMax (rows.map SRow.energy) * 50)
          + s.base.renewPct * (3 / 2)
          + (100 - s.base.waste / colMax (rows.map SRow.waste) * 50)
          + s.base.recycling) / 5) ∧
      s.overall = PF.num
        ((((100 - s.base.accident / colMax (rows.map SRow.accident) * 50)
          + (100 - s.base.fatal / max (colMax (rows.map SRow.fatal)) 1 * 50)
          + s.base.audit) / 3) * (2 / 5)
        + ((((100 - s.base.carbon / colMax (rows.map SRow.carbon) * 50)
          + (100 - s.base.energy / colMax (rows.map SRow.energy) * 50)
          + s.base.renewPct * (3 / 2)
          + (100 - s.base.waste / colMax (rows.map SRow.waste) * 50)
          + s.base.recycling) / 5)) * (3 / 5)) := by
  have hfat : max (colMax (rows.map SRow.fatal)) 1 ≠ (0 : ℚ) := by
    have : (0 : ℚ) < max (colMax (rows.map SRow.fatal)) 1 :=
      lt_of_lt_of_le one_pos (le_max_right _ _)
    exact ne_of_gt this
  have h3 : (3 : ℚ) ≠ 0 := by norm_num
  have h5 : (5 : ℚ) ≠ 0 := by norm_num
  have hout : calculate_esg_scores rows
      = some (sortOverallDesc (rows.map (scoreRow rows))) := by
    cases rows with
    | nil => exact absurd rfl hne
    | cons a l => rfl
  refine ⟨sortOverallDesc (rows.map (scoreRow rows)), hout, ?_⟩
  intro s hs
  have hmem : s ∈ rows.map (scoreRow rows) :=
    (perm_sortOverallDesc _).mem_iff.mp hs
  obtain ⟨r, _, rfl⟩ := List.mem_map.mp hmem
  refine ⟨?_, ?_, ?_, ?_, ?_, ?_, ?_, ?_, ?_, ?_, ?_⟩ <;>
    simp [scoreRow, PF.num_div_num, PF.num_mul_num, PF.num_sub_num,
      PF.num_add_num, hacc, hcar, hen, hwa, hfat, h3, h5]

/-- Claim C2 witness: the amended scoring-formula theorem applied to the
concrete two-row comparison table. -/
theorem c2_scoring_formulas_witness :
    ∃ out, calculate_esg_scores [c6RowA, c6RowB] = some out ∧ ∀ s ∈ out,
      s.accScore = PF.num (100 - s.base.accident / colMax ([c6RowA, c6RowB].map SRow.accident) * 50) ∧
      s.fatScore = PF.num (100 - s.base.fatal / max (colMax ([c6RowA, c6RowB].map SRow.fatal)) 1 * 50) ∧
      s.auditScore = PF.num s.base.audit ∧
      s.carbonScore = PF.num (100 - s.base.carbon / colMax ([c6RowA, c6RowB].map SRow.carbon) * 50) ∧
      s.energyScore = PF.num (100 - s.base.energy / colMax ([c6RowA, c6RowB].map SRow.energy) * 50) ∧
      s.renewScore = PF.num (s.base.renewPct * (3 / 2)) ∧
      s.wasteScore = PF.num (100 - s.base.waste / colMax ([c6RowA, c6RowB].map SRow.waste) * 50) ∧
      s.recycScore = PF.num s.base.recycling ∧
      s.safetyScore = PF.num
        (((100 - s.base.accident / colMax ([c6RowA, c6RowB].map SRow.accident) * 50)
          + (100 - s.base.fatal / max (colMax ([c6RowA, c6RowB].map SRow.fatal)) 1 * 50)
          + s.base.audit) / 3) ∧
      s.envScore = PF.num
        (((100 - s.base.carbon / colMax ([c6RowA, c6RowB].map SRow.carbon) * 50)
          + (100 - s.base.energy / colMax ([c6RowA, c6RowB].map SRow.energy) * 50)
          + s.base.renewPct * (3 / 2)
          + (100 - s.base.waste / colMax ([c6RowA, c6RowB].map SRow.waste) * 50)
          + s.base.recycling) / 5) ∧
      s.overall = PF.num
        ((((100 - s.base.accident / colMax ([c6RowA, c6RowB].map SRow.accident) * 50)
          + (100 - s.base.fatal / max (colMax ([c6RowA, c6RowB].map SRow.fatal)) 1 * 50)
          + s.base.audit) / 3) * (2 / 5)
        + ((((100 - s.base.carbon / colMax ([c6RowA, c6RowB].map SRow.carbon) * 50)
          + (100 - s.base.energy / colMax ([c6RowA, c6RowB].map SRow.energy) * 50)
          + s.base.renewPct * (3 / 2)
          + (100 - s.base.waste / colMax ([c6RowA, c6RowB].map SRow.waste) * 50)
          + s.base.recycling) / 5)) * (3 / 5)) :=
  c2_scoring_formulas [c6RowA, c6RowB] (by decide) (by decide) (by decide)
    (by decide) (by decide)

/-! ## Claim C3 — the division-by-zero guard -/

/-- Claim C3 counterexample: with every accident rate 0 the accident
maximum is 0 and the unguarded accident sub-score is `0/0 = NaN`, not 100 —
only the fatality indicator carries the `max(·, 1)` guard. -/
theorem c3_counterexample :
    (calculate_esg_scores
        [⟨"Z1", 0, 1, 98, 1000, 50, 40, 200, 90⟩,
         ⟨"Z2", 0, 2, 95, 2000, 80, 20, 400, 70⟩]).map
        (fun l => l.map ScoredRow.accScore) = some [PF.nan, PF.nan] ∧
    PF.nan ≠ PF.num 100 := by
  constructor
  · norm_num [calculate_esg_scores, sortOverallDesc, scoreRow, colMax,
      leOverall, PF.num_div_num, PF.num_mul_num, PF.num_sub_num,
      PF.num_add_num, PF.num_beq_nan, List.mergeSort, List.merge,
      HDiv.hDiv, Div.div, PF.fdiv, HMul.hMul, Mul.mul, PF.fmul,
      HSub.hSub, Sub.sub, PF.fsub, PF.fadd, PF.fneg, HAdd.hAdd, Add.add]
  · simp

/-- Greatest element of an all-zero column. -/
theorem foldl_max_zero (xs : List ℚ) (h : ∀ x ∈ xs, x = 0) :
    xs.foldl max 0 = 0 := by
  induction xs with
  | nil => rfl
  | cons y ys ih =>
    have hy : y = 0 := h y (List.mem_cons_self y ys)
    have hys : ∀ x ∈ ys, x = 0 := fun x hx => h x (List.mem_cons_of_mem y hx)
    simp [List.foldl_cons, hy, ih hys]

/-- `Series.max()` of an all-zero column is 0. -/
theorem colMax_zero (xs : List ℚ) (h : ∀ x ∈ xs, x = 0) : colMax xs = 0 := by
  cases xs with
  | nil => rfl
  | cons x rest =>
    have hx : x = 0 := h x (List.mem_cons_self x rest)
    have hrest : ∀ y ∈ rest, y = 0 := fun y hy => h y (List.mem_cons_of_mem x hy)
    show rest.foldl max x = 0
    rw [hx]
    exact foldl_max_zero rest hrest

/-- Claim C3 (amended): only the *fatality* indicator is guarded against a
zero column maximum.  When every row reports zero fatalities the fatality
denominator is `max(0, 1) = 1` and every ranked row's fatality sub-score is
exactly 100, with no division error — the scoring call still succeeds and
returns a full-length ranked table.  (For the other four lower-is-better
indicators a zero maximum instead yields NaN sub-scores, see the
counterexample.) -/
theorem c3_fatality_guard (rows : List SRow) (hne : rows ≠ [])
    (hfat : ∀ r ∈ rows, r.fatal = 0) :
    ∃ out, calculate_esg_scores rows = some out ∧
      out.length = rows.length ∧
      ∀ s ∈ out, s.fatScore = PF.num 100 := by
  have hmax : colMax (rows.map SRow.fatal) = 0 := by
    apply colMax_zero
    intro x hx
    obtain ⟨r, hr, rfl⟩ := List.mem_map.mp hx
    exact hfat r hr
  have hout : calculate_esg_scores rows
      = some (sortOverallDesc (rows.map (scoreRow rows))) := by
    cases rows with
    | nil => exact absurd rfl hne
    | cons a l => rfl
  refine ⟨sortOverallDesc (rows.map (scoreRow rows)), hout, ?_, ?_⟩
  · exact (perm_sortOverallDesc _).length_eq.trans (List.length_map _ _)
  · intro s hs
    have hmem : s ∈ rows.map (scoreRow rows) :=
      (perm_sortOverallDesc _).mem_iff.mp hs
    obtain ⟨r, hr, rfl⟩ := List.mem_map.mp hmem
    have hr0 : r.fatal = 0 := hfat r hr
    have h1 : (1 : ℚ) ≠ 0 := one_ne_zero
    simp [scoreRow, hmax, hr0, PF.num_div_num, PF.num_mul_num,
      PF.num_sub_num, h1]

/-- Claim C3 witness: two companies both reporting zero fatalities; both
ranked rows carry a fatality sub-score of exactly 100. -/
theorem c3_fatality_guard_witness :
    ∃ out, calculate_esg_scores
        [⟨"A", 1, 0, 98, 1000, 50, 40, 200, 90⟩,
         ⟨"B", 2, 0, 95, 2000, 80, 20, 400, 70⟩] = some out ∧
      out.length = [⟨"A", 1, 0, 98, 1000, 50, 40, 200, 90⟩,
         (⟨"B", 2, 0, 95, 2000, 80, 20, 400, 70⟩ : SRow)].length ∧
      ∀ s ∈ out, s.fatScore = PF.num 100 :=
  c3_fatality_guard _ (by decide) (by decide)
